import Mathlib

/-
Shallow embedding of the tx-fee-soundness repository.

The repository inspects Ethereum-style transactions over JSON-RPC and
cross-checks fee-related fields across sources.  The core logic lives in
src/tx_fee_compare.py (normalize_hash, build_view, compare_views, main's
exit-code decisions), with sibling logic in src/txfeebatch.py (load_hashes,
the batch main loop) and src/compare_etherscan_vs_rpc.py (fetch_via_rpc).

Python strings are modelled as lists of characters; Python integers as
Lean Int (arbitrary precision, signed); nullable values as Option;
fallible RPC calls as an explicit result type.
-/

set_option autoImplicit false

/-! ## Python string primitives -/

/-- Python `str` modelled as a list of characters. -/
abbrev PyStr := List Char

/-- The ASCII whitespace characters stripped by Python's `str.strip()` and
ignored around an `int(s, 16)` literal. -/
def pyWhitespace (c : Char) : Bool :=
  c = ' ' || c = '\t' || c = '\n' || c = '\r' || c = '\x0b' || c = '\x0c'

/-- Python `s.strip()`: remove leading and trailing whitespace. -/
def pyStrip (s : PyStr) : PyStr :=
  ((s.dropWhile pyWhitespace).reverse.dropWhile pyWhitespace).reverse

/-- Python `s.startswith("0x")` (case sensitive). -/
def startsWith0x : PyStr → Bool
  | '0' :: 'x' :: _ => true
  | _ => false

/-- Python `s.lower()` on ASCII data. -/
def pyLower (s : PyStr) : PyStr := s.map Char.toLower

/-- A hexadecimal digit as accepted by Python's `int(s, 16)`. -/
def isHexDig (c : Char) : Bool :=
  ('0' ≤ c && c ≤ '9') || ('a' ≤ c && c ≤ 'f') || ('A' ≤ c && c ≤ 'F')

/-- Continuation of a base-16 digit run in a Python int literal: further
digits, with single underscores allowed only between digits. -/
def hexTail : List Char → Bool
  | [] => true
  | '_' :: c :: rest => isHexDig c && hexTail rest
  | c :: rest => isHexDig c && hexTail rest

/-- A nonempty base-16 digit run (no leading underscore). -/
def hexDigits : List Char → Bool
  | [] => false
  | c :: rest => isHexDig c && hexTail rest

/-- The part of a Python base-16 int literal after the optional sign: an
optional `0x`/`0X` prefix (with an optional single underscore right after
it), then a digit run. -/
def int16AfterSign : List Char → Bool
  | '0' :: 'x' :: rest =>
    match rest with
    | '_' :: rest2 => hexDigits rest2
    | _ => hexDigits rest
  | '0' :: 'X' :: rest =>
    match rest with
    | '_' :: rest2 => hexDigits rest2
    | _ => hexDigits rest
  | s => hexDigits s

/-- A Python base-16 int literal body: optional single sign, then the
prefixed digit run. -/
def int16Body : List Char → Bool
  | '+' :: rest => int16AfterSign rest
  | '-' :: rest => int16AfterSign rest
  | s => int16AfterSign s

/-- Whether Python's `int(s, 16)` succeeds on `s`: surrounding whitespace
is ignored, a sign, a `0x`/`0X` prefix and single underscores between
digits are accepted. -/
def pyIntOk16 (s : PyStr) : Bool := int16Body (pyStrip s)

/-! ## HashNormalizer: normalize_hash (src/tx_fee_compare.py, lines 43-50)

```python
def normalize_hash(tx_hash: str) -> str:
    tx_hash = tx_hash.strip()
    if not tx_hash.startswith("0x"):
        tx_hash = "0x" + tx_hash
    if len(tx_hash) != 66:
        raise ValueError("tx hash must be 0x + 64 hex chars")
    int(tx_hash[2:], 16)  # validate hex
    return tx_hash.lower()
```

`none` models a raised `ValueError` (the `InvalidHash` outcome). -/

def normalize_hash (tx_hash : PyStr) : Option PyStr :=
  let t := pyStrip tx_hash
  let t := if startsWith0x t then t else '0' :: 'x' :: t
  if t.length ≠ 66 then none
  else if pyIntOk16 (t.drop 2) then some (pyLower t)
  else none

/-! ## Data model: TxView and the source-response bundle -/

/-- The fields of a raw transaction that build_view reads
(`tx.get("gasPrice")`). -/
structure RawTx where
  gasPrice : Option Int
  deriving Repr, DecidableEq

/-- The fields of a raw receipt that build_view reads. -/
structure RawReceipt where
  blockNumber : Option Int
  status : Option Int
  gasUsed : Option Int
  effectiveGasPrice : Option Int
  deriving Repr, DecidableEq

/-- Outcome of one RPC fetch: success, `TransactionNotFound`, or any
other exception carrying a message. -/
inductive Fetch (α : Type) where
  | ok (val : α)
  | notFound
  | err (msg : String)
  deriving Repr, DecidableEq

/-- What one source (one `w3` connection) answers during build_view:
`chainId`/`latestBlock` are `none` when the corresponding call raised. -/
structure Source where
  chainId : Option Int
  latestBlock : Option Int
  txResult : Fetch RawTx
  receiptResult : Fetch RawReceipt
  deriving Repr, DecidableEq

/-- The canonical per-source snapshot (dataclass TxView,
src/tx_fee_compare.py lines 17-28). -/
structure TxView where
  ok : Bool
  error : Option String
  rpc : String
  chain_id : Option Int
  block_number : Option Int
  status : Option Int
  gas_used : Option Int
  gas_price_wei : Option Int
  total_fee_wei : Option Int
  confirmations : Option Int
  deriving Repr, DecidableEq

/-- The TxView built on every failing branch of build_view: the literal
`TxView(ok=False, error=..., rpc=..., chain_id=chain_id, ...)` record that
appears four times in the source, with every later field `None`. -/
def errorView (rpc : String) (msg : String) (chain_id : Option Int) : TxView :=
  { ok := false
    error := some msg
    rpc := rpc
    chain_id := chain_id
    block_number := none
    status := none
    gas_used := none
    gas_price_wei := none
    total_fee_wei := none
    confirmations := none }

/-- FeeViewBuilder: build_view (src/tx_fee_compare.py, lines 73-171),
translated clause by clause. -/
def build_view (s : Source) (rpc : String) : TxView :=
  let chain_id := s.chainId
  let latest_block := s.latestBlock
  match s.txResult with
  | .notFound => errorView rpc "transaction-not-found" chain_id
  | .err e => errorView rpc ("error-fetching-tx: " ++ e) chain_id
  | .ok tx =>
    match s.receiptResult with
    | .notFound => errorView rpc "pending" chain_id
    | .err e => errorView rpc ("error-fetching-receipt: " ++ e) chain_id
    | .ok rcpt =>
      let block_number := rcpt.blockNumber
      let status := rcpt.status
      let gas_used := rcpt.gasUsed
      let gas_price_wei :=
        match rcpt.effectiveGasPrice with
        | some p => some p
        | none => tx.gasPrice
      let total_fee_wei :=
        match gas_used, gas_price_wei with
        | some g, some p => some (g * p)
        | _, _ => none
      let confirmations :=
        match latest_block, block_number with
        | some l, some b => some (max 0 (l - b + 1))
        | _, _ => none
      { ok := true
        error := none
        rpc := rpc
        chain_id := chain_id
        block_number := block_number
        status := status
        gas_used := gas_used
        gas_price_wei := gas_price_wei
        total_fee_wei := total_fee_wei
        confirmations := confirmations }

/-! ## Reconciler: compare_views (src/tx_fee_compare.py, lines 174-188)

```python
fields = ["chain_id", "block_number", "status", "gas_used",
          "gas_price_wei", "total_fee_wei"]
for f in fields:
    a = getattr(v1, f); b = getattr(v2, f)
    if a is None or b is None:
        result[f] = True  # treat as neutral (no comparison)
    else:
        result[f] = (a == b)
```
-/

/-- The fixed field iteration order of compare_views. -/
def comparedFields : List String :=
  ["chain_id", "block_number", "status", "gas_used", "gas_price_wei", "total_fee_wei"]

/-- `getattr(v, f)` for the six compared fields. -/
def getField (v : TxView) : String → Option Int
  | "chain_id" => v.chain_id
  | "block_number" => v.block_number
  | "status" => v.status
  | "gas_used" => v.gas_used
  | "gas_price_wei" => v.gas_price_wei
  | "total_fee_wei" => v.total_fee_wei
  | _ => none

/-- The per-field boolean compare_views stores: True when either side is
None, else equality. -/
def fieldVerdict (a b : Option Int) : Bool :=
  match a, b with
  | none, _ => true
  | _, none => true
  | some x, some y => x == y

/-- compare_views as an association list in the source's fixed field
order. -/
def compare_views (v1 v2 : TxView) : List (String × Bool) :=
  comparedFields.map (fun f => (f, fieldVerdict (getField v1 f) (getField v2 f)))

/-- Three-valued verdict from the specification's words. -/
inductive Verdict where
  | matched
  | mismatch
  | neutral
  deriving Repr, DecidableEq

/-- Modelled from the spec's words (ComparisonReport): neutral when at
least one side is null, matched when both are non-null and equal,
mismatch when both are non-null and differ.  Kept separate from
`fieldVerdict` so the code's boolean can be compared against it. -/
def verdictSpec (a b : Option Int) : Verdict :=
  match a, b with
  | some x, some y => if x = y then .matched else .mismatch
  | _, _ => .neutral

/-! ## Exit-code decision of main (src/tx_fee_compare.py, lines 270-314)

The function captures main's decision after both views are built: JSON
mode returns 0 iff the primary view and the (optional) secondary view are
ok; human-readable mode additionally returns 1 when any compared field
stored False, and otherwise falls through to `0 if v1.ok else 1`. -/

def main_exit_code (json_mode : Bool) (v1 : TxView) (v2 : Option TxView) : Int :=
  if json_mode then
    if v1.ok && (match v2 with | none => true | some w => w.ok) then 0 else 1
  else
    match v2 with
    | some w =>
      if v1.ok && w.ok then
        if (compare_views v1 w).any (fun p => !p.2) then 1
        else if v1.ok then 0 else 1
      else if v1.ok then 0 else 1
    | none => if v1.ok then 0 else 1

/-! ## fetch_via_rpc (src/compare_etherscan_vs_rpc.py, lines 13-25)

```python
"gasPrice": tx.get("gasPrice", None) or receipt.get("effectiveGasPrice"),
```
-/

/-- Python `a or b` on nullable integers: the left operand is kept only
when it is truthy (non-None and nonzero). -/
def pyOrInt (a b : Option Int) : Option Int :=
  match a with
  | some x => if x = 0 then b else some x
  | none => b

/-- The gasPrice field computed by fetch_via_rpc: the transaction's
declared gas price, falling back to the receipt's effective gas price
via Python `or`. -/
def fetch_via_rpc_gasPrice (tx : RawTx) (rcpt : RawReceipt) : Option Int :=
  pyOrInt tx.gasPrice rcpt.effectiveGasPrice

/-! ## BatchRunner: src/txfeebatch.py

The Python file carries stray indentation slips (e.g. lines 107, 203,
219); the statement sequence itself is unambiguous and is what is
embedded here.  In load_hashes the file-reading branch strips each line
but never appends it to the list, so only the `--tx` arguments reach the
deduplication loop. -/

/-- The deduplication loop of load_hashes (lines 112-120): a `seen` set
of raw strings, first occurrence kept, order preserved. -/
def dedupSeen (seen : List PyStr) : List PyStr → List PyStr
  | [] => []
  | h :: t => if h ∈ seen then dedupSeen seen t else h :: dedupSeen (h :: seen) t

/-- load_hashes (lines 96-120) restricted to its effective inputs: the
`--tx` arguments, deduplicated on the raw strings. -/
def load_hashes (tx : List PyStr) : List PyStr := dedupSeen [] tx

/-- Web3.to_hex(hexstr=s) as used by txfeebatch.normalize_hash, modelled
from eth-utils: lowercase the string and ensure a `0x` prefix. -/
def toHexStr (s : PyStr) : PyStr :=
  let t := pyLower s
  if startsWith0x t then t else '0' :: 'x' :: t

/-- txfeebatch.normalize_hash (lines 123-136): empty after strip is
rejected, a missing `0x` prefix is prepended, the string is passed
through Web3.to_hex, and the result must be 66 characters. -/
def batch_normalize_hash (tx_hash : PyStr) : Option PyStr :=
  let t := pyStrip tx_hash
  if t = [] then none
  else
    let t := if startsWith0x t then t else '0' :: 'x' :: t
    let t := toHexStr t
    if t.length ≠ 66 then none else some t

/-- Observable stages of txfeebatch.main, used to state what a run did
before returning. -/
inductive BatchEv where
  | errMsg (msg : String)
  | loadedHashes
  | connectedRpc
  | processedHash (h : PyStr)
  deriving Repr, DecidableEq

/-- The parsed arguments of txfeebatch.main that its decisions read. -/
structure BatchArgs where
  min_confirmations : Int
  tx : List PyStr
  max_fee_set : Bool
  deriving Repr

/-- The environment of one batch run: provider construction, the
connectivity probe, the chain-id/latest-block reads, the per-hash
fetches, and the configured fee threshold.  `feeExceeds` abstracts the
floating-point comparison `float(from_wei(fee, "ether")) > max_fee_eth`
on line 297, which is not representable exactly. -/
structure BatchEnv where
  provider_ok : Bool
  connected : Bool
  chainId : Option Int
  latestBlock : Option Int
  fetchTx : PyStr → Fetch RawTx
  fetchReceipt : PyStr → Fetch RawReceipt
  feeExceeds : Int → Bool

/-- One iteration of the per-hash loop of txfeebatch.main (lines
210-303), returning the (any_error, any_fee_violation) contribution of
the row. -/
def batch_row (args : BatchArgs) (env : BatchEnv) (latest_block : Option Int)
    (raw : PyStr) : Bool × Bool :=
  match batch_normalize_hash raw with
  | none => (true, false)
  | some tx_hash =>
    match env.fetchTx tx_hash with
    | .notFound => (true, false)
    | .err _ => (true, false)
    | .ok tx =>
      match env.fetchReceipt tx_hash with
      | .notFound => (false, false)
      | .err _ => (true, false)
      | .ok rcpt =>
        let block_number := rcpt.blockNumber
        let gas_used := rcpt.gasUsed
        let gas_price_wei :=
          match rcpt.effectiveGasPrice with
          | some p => some p
          | none => tx.gasPrice
        let total_fee_wei :=
          match gas_used, gas_price_wei with
          | some g, some p => some (g * p)
          | _, _ => none
        let confirmations :=
          match latest_block, block_number with
          | some l, some b => some (max 0 (l - b + 1))
          | _, _ => none
        let conf_err :=
          match confirmations with
          | some c => decide (c < args.min_confirmations)
          | none => false
        let fee_viol :=
          match total_fee_wei with
          | some f => args.max_fee_set && env.feeExceeds f
          | none => false
        (conf_err, fee_viol)

/-- txfeebatch.main (lines 140-318): the `--min-confirmations` guard,
hash loading, connection, the per-hash loop, and the final exit code;
the second component records which stages ran. -/
def batch_main (args : BatchArgs) (env : BatchEnv) : Int × List BatchEv :=
  if args.min_confirmations < 0 then
    (1, [.errMsg "ERROR: --min-confirmations must be >= 0"])
  else
    let hashes_raw := load_hashes args.tx
    if hashes_raw = [] then
      (1, [.loadedHashes, .errMsg "No transaction hashes provided (use --tx and/or --file)."])
    else if !env.provider_ok then
      (1, [.loadedHashes, .errMsg "Failed to create Web3 provider"])
    else if !env.connected then
      (1, [.loadedHashes, .errMsg "Could not connect to RPC endpoint"])
    else
      let evs := [BatchEv.loadedHashes, BatchEv.connectedRpc]
        ++ hashes_raw.map BatchEv.processedHash
      let flags := hashes_raw.foldl
        (fun (acc : Bool × Bool) raw =>
          let r := batch_row args env env.latestBlock raw
          (acc.1 || r.1, acc.2 || r.2))
        (false, false)
      (if flags.1 || flags.2 then 1 else 0, evs)

/-! ## Concrete fixtures used by witnesses and counterexamples -/

/-- `0x` followed by 64 uppercase `A` hex digits. -/
def hashAUpper : PyStr := '0' :: 'x' :: List.replicate 64 'A'

/-- `0x` followed by 64 lowercase `a` hex digits: the same 32 bytes as
`hashAUpper`. -/
def hashALower : PyStr := '0' :: 'x' :: List.replicate 64 'a'

/-- A 66-character input whose payload starts with a second `0x` prefix,
so it does not denote 32 bytes of hex. -/
def hashInner0x : PyStr := '0' :: 'x' :: '0' :: 'x' :: List.replicate 62 'a'

/-- A mined transaction as the source reports it. -/
def txMined : RawTx := { gasPrice := some 5 }

/-- A mined receipt with an effective gas price present. -/
def rcptMined : RawReceipt :=
  { blockNumber := some 3, status := some 1, gasUsed := some 21000,
    effectiveGasPrice := some 7 }

/-- A healthy source on chain 1. -/
def srcChain1 : Source :=
  { chainId := some 1, latestBlock := some 10,
    txResult := .ok txMined, receiptResult := .ok rcptMined }

/-- The same answers but reporting chain id 2. -/
def srcChain2 : Source :=
  { chainId := some 2, latestBlock := some 10,
    txResult := .ok txMined, receiptResult := .ok rcptMined }

/-- The same answers but the chain-id query raised. -/
def srcNoChain : Source :=
  { chainId := none, latestBlock := some 10,
    txResult := .ok txMined, receiptResult := .ok rcptMined }

/-- A stale head: the latest-block read (5) is behind the inclusion
block (7). -/
def srcStale : Source :=
  { chainId := some 1, latestBlock := some 5,
    txResult := .ok txMined,
    receiptResult := .ok { rcptMined with blockNumber := some 7 } }

/-- A source that knows its chain id but not the transaction. -/
def srcNotFound : Source :=
  { chainId := some 1, latestBlock := some 10,
    txResult := .notFound, receiptResult := .notFound }

/-- A pending transaction: found, but no receipt yet. -/
def srcPending : Source :=
  { chainId := some 1, latestBlock := some 10,
    txResult := .ok txMined, receiptResult := .notFound }

/-- A transaction declaring gas price 2 while its receipt carries
effective gas price 3. -/
def txPref : RawTx := { gasPrice := some 2 }

/-- The receipt paired with `txPref`. -/
def rcptPref : RawReceipt :=
  { blockNumber := some 3, status := some 1, gasUsed := some 21000,
    effectiveGasPrice := some 3 }

/-- Batch arguments with a negative `--min-confirmations`. -/
def argsNeg : BatchArgs := { min_confirmations := -1, tx := [], max_fee_set := false }

/-- A batch environment that answers nothing. -/
def envNone : BatchEnv :=
  { provider_ok := true, connected := true, chainId := none, latestBlock := none,
    fetchTx := fun _ => .notFound, fetchReceipt := fun _ => .notFound,
    feeExceeds := fun _ => false }

/-! ## General lemmas about build_view -/

/-- A TxView with ok=true can only come from the branch where both the
transaction and the receipt were fetched. -/
theorem build_view_ok_elim (s : Source) (rpc : String)
    (h : (build_view s rpc).ok = true) :
    ∃ tx rcpt, s.txResult = Fetch.ok tx ∧ s.receiptResult = Fetch.ok rcpt := by
  cases htx : s.txResult with
  | ok tx =>
    cases hrc : s.receiptResult with
    | ok rcpt => exact ⟨tx, rcpt, rfl, rfl⟩
    | notFound => simp [build_view, htx, hrc, errorView] at h
    | err e => simp [build_view, htx, hrc, errorView] at h
  | notFound => simp [build_view, htx, errorView] at h
  | err e => simp [build_view, htx, errorView] at h

/-- The successful branch of build_view, written out field by field. -/
theorem build_view_ok_eq (s : Source) (rpc : String) (tx : RawTx) (rcpt : RawReceipt)
    (htx : s.txResult = Fetch.ok tx) (hrc : s.receiptResult = Fetch.ok rcpt) :
    build_view s rpc =
      { ok := true
        error := none
        rpc := rpc
        chain_id := s.chainId
        block_number := rcpt.blockNumber
        status := rcpt.status
        gas_used := rcpt.gasUsed
        gas_price_wei :=
          match rcpt.effectiveGasPrice with
          | some p => some p
          | none => tx.gasPrice
        total_fee_wei :=
          match rcpt.gasUsed,
            (match rcpt.effectiveGasPrice with
             | some p => some p
             | none => tx.gasPrice) with
          | some g, some p => some (g * p)
          | _, _ => none
        confirmations :=
          match s.latestBlock, rcpt.blockNumber with
          | some l, some b => some (max 0 (l - b + 1))
          | _, _ => none } := by
  simp [build_view, htx, hrc]

/-- Every failing branch of build_view yields an errorView carrying the
already-fetched chain id. -/
theorem build_view_not_ok_eq (s : Source) (rpc : String)
    (h : (build_view s rpc).ok = false) :
    ∃ msg, build_view s rpc = errorView rpc msg s.chainId := by
  cases htx : s.txResult with
  | notFound => exact ⟨"transaction-not-found", by simp [build_view, htx]⟩
  | err e => exact ⟨"error-fetching-tx: " ++ e, by simp [build_view, htx]⟩
  | ok tx =>
    cases hrc : s.receiptResult with
    | notFound => exact ⟨"pending", by simp [build_view, htx, hrc]⟩
    | err e => exact ⟨"error-fetching-receipt: " ++ e, by simp [build_view, htx, hrc]⟩
    | ok rcpt =>
      rw [build_view_ok_eq s rpc tx rcpt htx hrc] at h
      simp at h

/-- Confirmations as a function of the latest block and the view's block
number, over all branches of build_view. -/
theorem build_view_confirmations_eq (s : Source) (rpc : String) :
    (build_view s rpc).confirmations =
      match s.latestBlock, (build_view s rpc).block_number with
      | some l, some b => some (max 0 (l - b + 1))
      | _, _ => none := by
  cases htx : s.txResult with
  | notFound =>
    simp only [build_view, htx, errorView]
    cases s.latestBlock <;> rfl
  | err e =>
    simp only [build_view, htx, errorView]
    cases s.latestBlock <;> rfl
  | ok tx =>
    cases hrc : s.receiptResult with
    | notFound =>
      simp only [build_view, htx, hrc, errorView]
      cases s.latestBlock <;> rfl
    | err e =>
      simp only [build_view, htx, hrc, errorView]
      cases s.latestBlock <;> rfl
    | ok rcpt =>
      rw [build_view_ok_eq s rpc tx rcpt htx hrc]

/-! ## Claims -/

/-- Claim C1: for every TxView produced by build_view with ok=true,
total_fee_wei is null iff gas_used or gas_price_wei is null, and whenever
both are non-null it is the exact integer product gas_used *
gas_price_wei. -/
theorem c1_total_fee_exact_product (s : Source) (rpc : String)
    (hok : (build_view s rpc).ok = true) :
    ((build_view s rpc).total_fee_wei = none ↔
      ((build_view s rpc).gas_used = none ∨ (build_view s rpc).gas_price_wei = none)) ∧
    (∀ g p : Int, (build_view s rpc).gas_used = some g →
      (build_view s rpc).gas_price_wei = some p →
      (build_view s rpc).total_fee_wei = some (g * p)) := by
  obtain ⟨tx, rcpt, htx, hrc⟩ := build_view_ok_elim s rpc hok
  rw [build_view_ok_eq s rpc tx rcpt htx hrc]
  cases hgu : rcpt.gasUsed <;> cases heg : rcpt.effectiveGasPrice <;>
    cases hgp : tx.gasPrice <;> simp

/-- Witness for C1 at a concrete mined transaction. -/
theorem c1_total_fee_exact_product_witness :
    (build_view srcChain1 "r1").ok = true ∧
    (build_view srcChain1 "r1").total_fee_wei = some (21000 * 7) :=
  ⟨by decide,
    (c1_total_fee_exact_product srcChain1 "r1" (by decide)).2 21000 7
      (by decide) (by decide)⟩

/-- Claim C3: confirmations is max 0 (latest - block + 1) when both are
known, 0 on a stale head read (latest < block), never negative, and null
when either input is unknown. -/
theorem c3_confirmations_clamped (s : Source) (rpc : String) :
    (∀ l b : Int, s.latestBlock = some l →
      (build_view s rpc).block_number = some b →
      (build_view s rpc).confirmations = some (max 0 (l - b + 1)) ∧
        (l < b → (build_view s rpc).confirmations = some 0)) ∧
    (∀ c : Int, (build_view s rpc).confirmations = some c → 0 ≤ c) ∧
    (s.latestBlock = none → (build_view s rpc).confirmations = none) ∧
    ((build_view s rpc).block_number = none → (build_view s rpc).confirmations = none) := by
  have h := build_view_confirmations_eq s rpc
  refine ⟨?_, ?_, ?_, ?_⟩
  · intro l b hl hb
    rw [h, hl, hb]
    refine ⟨rfl, ?_⟩
    intro hlt
    have hle : l - b + 1 ≤ 0 := by omega
    simp [max_eq_left hle]
  · intro c hc
    rw [h] at hc
    rcases hl : s.latestBlock with _ | l <;>
      rcases hb : (build_view s rpc).block_number with _ | b <;>
        rw [hl, hb] at hc <;> simp at hc
    rw [← hc]
    exact le_max_left 0 (l - b + 1)
  · intro hl
    rw [h, hl]
  · intro hb
    rw [h, hb]
    cases s.latestBlock <;> rfl

/-- Witness for C3: eight confirmations for block 3 at head 10, and a
clamped zero for block 7 at stale head 5. -/
theorem c3_confirmations_clamped_witness :
    (build_view srcChain1 "r1").confirmations = some 8 ∧
    (build_view srcStale "r1").confirmations = some 0 :=
  ⟨(((c3_confirmations_clamped srcChain1 "r1").1 10 3 (by decide) (by decide)).1).trans
      (by decide),
   ((c3_confirmations_clamped srcStale "r1").1 5 7 (by decide) (by decide)).2
      (by decide)⟩

/-- Claim C5 counterexample: a not-found view has ok=false, yet its
chain_id is non-null (the chain id fetched before the failing query is
preserved), so "all numeric fields are null" fails as stated. -/
theorem c5_counterexample_chain_id_kept :
    (build_view srcNotFound "r1").ok = false ∧
    (build_view srcNotFound "r1").error = some "transaction-not-found" ∧
    (build_view srcNotFound "r1").chain_id = some 1 := by
  refine ⟨by decide, by decide, by decide⟩

/-- Claim C5 (amended): for every TxView returned with ok=false, the
numeric fields block_number, status, gas_used, gas_price_wei,
total_fee_wei and confirmations are null and the error is non-null,
while chain_id keeps whatever the earlier chain-id query returned. -/
theorem c5_amended_error_view_fields (s : Source) (rpc : String)
    (h : (build_view s rpc).ok = false) :
    (build_view s rpc).block_number = none ∧
    (build_view s rpc).status = none ∧
    (build_view s rpc).gas_used = none ∧
    (build_view s rpc).gas_price_wei = none ∧
    (build_view s rpc).total_fee_wei = none ∧
    (build_view s rpc).confirmations = none ∧
    (build_view s rpc).error.isSome = true ∧
    (build_view s rpc).chain_id = s.chainId := by
  obtain ⟨msg, hmsg⟩ := build_view_not_ok_eq s rpc h
  rw [hmsg]
  simp [errorView]

/-- Witness for the amended C5 at a concrete not-found source. -/
theorem c5_amended_error_view_fields_witness :
    (build_view srcNotFound "r1").total_fee_wei = none ∧
    (build_view srcNotFound "r1").confirmations = none :=
  ⟨(c5_amended_error_view_fields srcNotFound "r1" (by decide)).2.2.2.2.1,
   (c5_amended_error_view_fields srcNotFound "r1" (by decide)).2.2.2.2.2.1⟩

/-- fieldVerdict stores exactly "not a spec-mismatch". -/
theorem fieldVerdict_eq_not_mismatch (a b : Option Int) :
    fieldVerdict a b = !decide (verdictSpec a b = Verdict.mismatch) := by
  rcases a with _ | x <;> rcases b with _ | y
  · simp [fieldVerdict, verdictSpec]
  · simp [fieldVerdict, verdictSpec]
  · simp [fieldVerdict, verdictSpec]
  · by_cases hxy : x = y <;> simp [fieldVerdict, verdictSpec, hxy]

/-- Claim C2 counterexample: on two ok views that agree everywhere except
that one side's chain_id is null, the report is identical to the report
of two fully matching views, so the neutral verdict is not distinct from
the match verdict in compare_views. -/
theorem c2_counterexample_neutral_equals_match :
    (build_view srcNoChain "r1").ok = true ∧
    (build_view srcChain1 "r1").ok = true ∧
    (build_view srcNoChain "r1").chain_id = none ∧
    (build_view srcChain1 "r1").chain_id = some 1 ∧
    compare_views (build_view srcNoChain "r1") (build_view srcChain1 "r1") =
      compare_views (build_view srcChain1 "r1") (build_view srcChain1 "r1") := by
  refine ⟨by decide, by decide, by decide, by decide, by decide⟩

/-- Claim C2 (amended): compare_views classifies each field by the three
spec cases but collapses the verdict to a boolean: an entry is False iff
both sides are non-null and differ; the neutral case (a null side) and
the match case (both non-null and equal) both store True. -/
theorem c2_amended_boolean_verdicts (v1 v2 : TxView) :
    compare_views v1 v2 =
      comparedFields.map (fun f =>
        (f, !decide (verdictSpec (getField v1 f) (getField v2 f) = Verdict.mismatch))) ∧
    (∀ a b : Option Int,
      (fieldVerdict a b = false ↔ ∃ x y : Int, a = some x ∧ b = some y ∧ x ≠ y)) := by
  constructor
  · simp only [compare_views, fieldVerdict_eq_not_mismatch]
  · intro a b
    rcases a with _ | x <;> rcases b with _ | y <;> simp [fieldVerdict]

/-- Claim C4: build_view resolves gas_price_wei by ordered preference
(receipt's effective gas price first, the transaction's declared gas
price only when it is absent), while fetch_via_rpc in
compare_etherscan_vs_rpc.py evaluates the declared gas price first: at a
receipt carrying effective gas price 3 and a transaction declaring 2 it
returns 2. -/
theorem c4_effective_gas_price_preference :
    (∀ (s : Source) (rpc : String) (tx : RawTx) (rcpt : RawReceipt),
      s.txResult = Fetch.ok tx → s.receiptResult = Fetch.ok rcpt →
      (∀ p : Int, rcpt.effectiveGasPrice = some p →
        (build_view s rpc).gas_price_wei = some p) ∧
      (rcpt.effectiveGasPrice = none →
        (build_view s rpc).gas_price_wei = tx.gasPrice)) ∧
    fetch_via_rpc_gasPrice txPref rcptPref = some 2 ∧
    rcptPref.effectiveGasPrice = some 3 := by
  refine ⟨?_, by decide, by decide⟩
  intro s rpc tx rcpt htx hrc
  rw [build_view_ok_eq s rpc tx rcpt htx hrc]
  constructor
  · intro p hp
    simp [hp]
  · intro hp
    simp [hp]

/-- Witness for C4 at a concrete source whose receipt carries an
effective gas price. -/
theorem c4_effective_gas_price_preference_witness :
    (build_view srcChain1 "r1").gas_price_wei = some 7 :=
  (c4_effective_gas_price_preference.1 srcChain1 "r1" txMined rcptMined
    (by decide) (by decide)).1 7 (by decide)

/-- Claim C6: normalize_hash accepts a 66-character input whose payload
is a second `0x` prefix plus 62 hex digits — not 64 hexadecimal
characters — because Python's int(s, 16) tolerates an inner prefix; the
input is returned as canonical instead of raising the InvalidHash
error demanded by the claim and by the code's own error message. -/
theorem c6_normalize_accepts_non_hex :
    normalize_hash hashInner0x = some hashInner0x ∧
    hashInner0x.length = 66 ∧
    (hashInner0x.drop 2).all isHexDig = false := by
  refine ⟨by decide, by decide, by decide⟩

/-! ## Deduplication lemmas (load_hashes) -/

/-- The dedup loop output is a sublist of its input (first-seen order is
preserved). -/
theorem dedupSeen_sublist (seen l : List PyStr) : List.Sublist (dedupSeen seen l) l := by
  induction l generalizing seen with
  | nil => simp [dedupSeen]
  | cons h t ih =>
    rw [dedupSeen]
    by_cases hs : h ∈ seen
    · rw [if_pos hs]
      exact (ih seen).cons h
    · rw [if_neg hs]
      exact (ih (h :: seen)).cons₂ h

/-- Membership in the dedup loop output: present in the input and not
already seen. -/
theorem mem_dedupSeen (a : PyStr) (seen l : List PyStr) :
    a ∈ dedupSeen seen l ↔ a ∈ l ∧ a ∉ seen := by
  induction l generalizing seen with
  | nil => simp [dedupSeen]
  | cons h t ih =>
    rw [dedupSeen]
    by_cases hs : h ∈ seen
    · rw [if_pos hs, ih seen]
      simp only [List.mem_cons]
      constructor
      · rintro ⟨ht, hn⟩
        exact ⟨Or.inr ht, hn⟩
      · rintro ⟨rfl | ht, hn⟩
        · exact absurd hs hn
        · exact ⟨ht, hn⟩
    · rw [if_neg hs]
      simp only [List.mem_cons, ih (h :: seen)]
      constructor
      · rintro (rfl | ⟨ht, hn⟩)
        · exact ⟨Or.inl rfl, hs⟩
        · exact ⟨Or.inr ht, fun hm => hn (Or.inr hm)⟩
      · rintro ⟨rfl | ht, hn⟩
        · exact Or.inl rfl
        · by_cases hah : a = h
          · exact Or.inl hah
          · exact Or.inr ⟨ht, fun hm => hm.elim hah hn⟩

/-- The dedup loop output has no duplicates. -/
theorem nodup_dedupSeen (seen l : List PyStr) : (dedupSeen seen l).Nodup := by
  induction l generalizing seen with
  | nil => simp [dedupSeen]
  | cons h t ih =>
    rw [dedupSeen]
    by_cases hs : h ∈ seen
    · rw [if_pos hs]
      exact ih seen
    · rw [if_neg hs]
      exact List.nodup_cons.mpr
        ⟨fun hm => ((mem_dedupSeen h (h :: seen) t).mp hm).2 (List.mem_cons_self h seen),
         ih (h :: seen)⟩

/-- Claim C7 counterexample: the batch dedup loop runs on the raw input
strings, so the same 32 bytes written in upper and lower case survive as
two entries even though normalize_hash sends both to the same canonical
form. -/
theorem c7_counterexample_raw_dedup :
    load_hashes [hashAUpper, hashALower, hashAUpper] = [hashAUpper, hashALower] ∧
    normalize_hash hashAUpper = normalize_hash hashALower ∧
    (normalize_hash hashAUpper).isSome = true := by
  refine ⟨by decide, by decide, by decide⟩

/-- Claim C7 (amended): deduplication in load_hashes compares the raw
input strings — preserving first-seen order, collapsing exactly the
repeated raw strings — and does not canonicalize, so case or prefix
variants of the same bytes remain distinct entries. -/
theorem c7_amended_dedup_on_raw (l : List PyStr) :
    List.Sublist (load_hashes l) l ∧
    (load_hashes l).Nodup ∧
    (∀ a : PyStr, a ∈ load_hashes l ↔ a ∈ l) := by
  refine ⟨dedupSeen_sublist [] l, nodup_dedupSeen [] l, fun a => ?_⟩
  rw [load_hashes, mem_dedupSeen]
  simp

/-- Claim C8 counterexample: both views are ok and chain_id mismatches,
yet JSON mode exits 0; the mismatch affects only the human-readable mode. -/
theorem c8_counterexample_json_ignores_mismatch :
    (build_view srcChain1 "r1").ok = true ∧
    (build_view srcChain2 "r2").ok = true ∧
    (compare_views (build_view srcChain1 "r1") (build_view srcChain2 "r2")).any
      (fun p => !p.2) = true ∧
    main_exit_code true (build_view srcChain1 "r1")
      (some (build_view srcChain2 "r2")) = 0 := by
  refine ⟨by decide, by decide, by decide, by decide⟩

/-- Claim C8 (amended): with two ok views, the human-readable mode exits
1 exactly when some compared field stored False and 0 otherwise, while
JSON mode exits 0 regardless of mismatches. -/
theorem c8_amended_exit_code_modes (v1 v2 : TxView)
    (h1 : v1.ok = true) (h2 : v2.ok = true) :
    main_exit_code true v1 (some v2) = 0 ∧
    main_exit_code false v1 (some v2) =
      (if (compare_views v1 v2).any (fun p => !p.2) then 1 else 0) := by
  simp [main_exit_code, h1, h2]

/-- Witness for the amended C8 at two agreeing sources. -/
theorem c8_amended_exit_code_modes_witness :
    main_exit_code true (build_view srcChain1 "r1")
      (some (build_view srcChain1 "r2")) = 0 ∧
    main_exit_code false (build_view srcChain1 "r1")
      (some (build_view srcChain1 "r2")) = 0 :=
  ⟨(c8_amended_exit_code_modes (build_view srcChain1 "r1") (build_view srcChain1 "r2")
      (by decide) (by decide)).1,
   ((c8_amended_exit_code_modes (build_view srcChain1 "r1") (build_view srcChain1 "r2")
      (by decide) (by decide)).2).trans (by decide)⟩

/-- Claim C9 counterexample: a pending transaction on the primary source
(and no secondary) exits 1 in both output modes, not 0. -/
theorem c9_counterexample_pending_exits_one :
    (build_view srcPending "r1").error = some "pending" ∧
    (build_view srcPending "r1").ok = false ∧
    main_exit_code false (build_view srcPending "r1") none = 1 ∧
    main_exit_code true (build_view srcPending "r1") none = 1 := by
  refine ⟨by decide, by decide, by decide, by decide⟩

/-- Claim C9 (amended): a pending primary view (transaction found, no
receipt) carries error "pending" with ok=false, and the
single-transaction tool exits 1 in every output mode and for every secondary
view. -/
theorem c9_amended_pending_exit_one (s : Source) (rpc : String) (tx : RawTx)
    (htx : s.txResult = Fetch.ok tx) (hrc : s.receiptResult = Fetch.notFound) :
    (build_view s rpc).error = some "pending" ∧
    (build_view s rpc).ok = false ∧
    (∀ (json_mode : Bool) (v2 : Option TxView),
      main_exit_code json_mode (build_view s rpc) v2 = 1) := by
  have hbv : build_view s rpc = errorView rpc "pending" s.chainId := by
    simp [build_view, htx, hrc]
  rw [hbv]
  refine ⟨rfl, rfl, ?_⟩
  intro json_mode v2
  cases json_mode <;> cases v2 <;> simp [main_exit_code, errorView]

/-- Witness for the amended C9 at a concrete pending source. -/
theorem c9_amended_pending_exit_one_witness :
    main_exit_code false (build_view srcPending "r1") none = 1 :=
  (c9_amended_pending_exit_one srcPending "r1" txMined (by decide) (by decide)).2.2
    false none

/-- Claim C10: a strictly negative parsed --min-confirmations makes
txfeebatch.main report the error and return exit code 1 with nothing
else happening: no hash loading, no RPC connection, no per-hash
processing. -/
theorem c10_negative_min_confirmations_guard (args : BatchArgs) (env : BatchEnv)
    (h : args.min_confirmations < 0) :
    batch_main args env =
      (1, [BatchEv.errMsg "ERROR: --min-confirmations must be >= 0"]) := by
  simp [batch_main, h]

/-- Witness for C10 at min_confirmations = -1. -/
theorem c10_negative_min_confirmations_guard_witness :
    batch_main argsNeg envNone =
      (1, [BatchEv.errMsg "ERROR: --min-confirmations must be >= 0"]) :=
  c10_negative_min_confirmations_guard argsNeg envNone (by decide)
